import Mathlib

/-!
Verification of the telegram-userbot core decision components, shallowly
embedded from the Python sources (`utils.py`, `categories.py`, `models.py`,
`database.py`, `userbot.py`).  Wall-clock times of day carry hour/minute at
minute resolution, exactly as Python `datetime.time` objects are used here;
timestamps for expiry arithmetic are modelled as integer seconds.  The
`HH:MM` strings that `TimeRule.to_dict`/`from_dict` store are modelled as
their character lists, so that formatting and parsing are fully executable.
-/

/-- A wall-clock time of day at minute resolution (Python `datetime.time`
as used by this program: only hour and minute are ever set). -/
structure Time where
  hour : Nat
  minute : Nat
deriving DecidableEq, Repr

/-- Python compares `datetime.time` values lexicographically by component;
with only hour and minute populated this is the lexicographic order on
(hour, minute). -/
def Time.le (a b : Time) : Prop :=
  a.hour < b.hour ∨ (a.hour = b.hour ∧ a.minute ≤ b.minute)

instance (a b : Time) : Decidable (Time.le a b) :=
  inferInstanceAs (Decidable (_ ∨ _))

/-- Model of `utils.is_time_in_range`: `start <= end` is a non-wrapping
interval, inclusive at both ends; `start > end` wraps midnight
(`check >= start or check <= end`). -/
def is_time_in_range (check_time start_time end_time : Time) : Bool :=
  if Time.le start_time end_time then
    decide (Time.le start_time check_time) && decide (Time.le check_time end_time)
  else
    decide (Time.le start_time check_time) || decide (Time.le check_time end_time)

/-- Python `str.strip()` on a character list: drop whitespace at both ends. -/
def stripChars (l : List Char) : List Char :=
  ((l.dropWhile Char.isWhitespace).reverse.dropWhile Char.isWhitespace).reverse

/-- Helper for `str.split(':')`: accumulates the current field in reverse. -/
def splitColonAux : List Char → List Char → List (List Char)
  | [], acc => [acc.reverse]
  | c :: rest, acc =>
    if c = ':' then acc.reverse :: splitColonAux rest [] else splitColonAux rest (c :: acc)

/-- Python `str.split(':')` on a character list. -/
def splitOnColon (l : List Char) : List (List Char) :=
  splitColonAux l []

/-- Python `int(s)` on the digit strings this program generates and stores
(`int` conversion failure maps to `none`; signs and embedded underscores,
which the program never produces, are treated as failures). -/
def charsToNat? (l : List Char) : Option Nat :=
  if l ≠ [] ∧ l.all Char.isDigit then
    some (l.foldl (fun a c => 10 * a + (c.toNat - 48)) 0)
  else none

/-- Zero-padding of `strftime` field `%H` / `%M` to two digits. -/
def pad2 (n : Nat) : List Char :=
  if n < 10 then '0' :: Nat.toDigits 10 n else Nat.toDigits 10 n

/-- Model of `time.strftime('%H:%M')` for a time holding hour and minute. -/
def fmtTime (t : Time) : List Char :=
  pad2 t.hour ++ [':'] ++ pad2 t.minute

/-- Model of `utils.parse_time`: strip, split on a colon, require exactly
two fields, convert both to integers (conversion failure yields `None`),
bounds-check `0 <= hour <= 23` and `0 <= minute <= 59`. -/
def parse_time (s : List Char) : Option Time :=
  match splitOnColon (stripChars s) with
  | [h, m] =>
    match charsToNat? h, charsToNat? m with
    | some hour, some minute =>
      if hour ≤ 23 && minute ≤ 59 then some ⟨hour, minute⟩ else none
    | _, _ => none
  | _ => none

/-- A well-formed time of day, the invariant `parse_time` establishes for
every time this program ever stores. -/
def ValidTime (t : Time) : Prop := t.hour < 24 ∧ t.minute < 60

instance (t : Time) : Decidable (ValidTime t) := by
  unfold ValidTime; infer_instance

/-- A time-based auto-switch rule (`models.TimeRule`). -/
structure TimeRule where
  category : String
  start_time : Time
  end_time : Time
  rule_id : String
deriving DecidableEq, Repr

/-- The MongoDB document produced by `TimeRule.to_dict`: times are stored
as `HH:MM` strings, here as character lists. -/
structure RuleDict where
  rule_id : String
  category : String
  start_time : List Char
  end_time : List Char
deriving DecidableEq, Repr

/-- Model of `TimeRule.to_dict`. -/
def TimeRule.to_dict (r : TimeRule) : RuleDict :=
  { rule_id := r.rule_id, category := r.category,
    start_time := fmtTime r.start_time, end_time := fmtTime r.end_time }

/-- Model of `TimeRule.from_dict`: parses the stored time strings, raising
`ValueError` (modelled as `none`) when either fails to parse; a present
`rule_id` is preserved. -/
def RuleDict.from_dict (d : RuleDict) : Option TimeRule :=
  match parse_time d.start_time, parse_time d.end_time with
  | some s, some e => some ⟨d.category, s, e, d.rule_id⟩
  | _, _ => none

/-- Sequential `TimeRule.from_dict` over a stored snapshot, as the restore
loop in `_reset_temp_mode` performs it; an entry that fails to parse raises
there, modelled as an overall `none`. -/
def rules_from_dicts : List RuleDict → Option (List TimeRule)
  | [] => some []
  | d :: ds =>
    match RuleDict.from_dict d, rules_from_dicts ds with
    | some r, some rs => some (r :: rs)
    | _, _ => none

/-- The fixed category table of `categories.py`, in its source order. -/
def CATEGORIES : List (String × String) :=
  [("away", "Hey! I\x27m currently away from my phone. I\x27ll get back to you soon 😊"),
   ("busy", "I\x27m a bit busy right now, but I\x27ll reply as soon as I can 🙏"),
   ("offline", "I\x27m offline at the moment. Will catch up with you later!"),
   ("work", "I\x27m working right now. I\x27ll respond once I\x27m free ⚡"),
   ("study", "I\x27m studying at the moment. Will get back to you later 📚"),
   ("meetings", "I\x27m in meetings right now. I\x27ll reply as soon as they\x27re done!"),
   ("focus", "I\x27m in deep focus mode. Will respond when I\x27m done 🎯"),
   ("dnd", "Please don\x27t disturb right now. I\x27ll get back to you soon!"),
   ("sleep", "I\x27m sleeping right now. I\x27ll reply when I wake up 😴"),
   ("lunch", "I\x27m having lunch. Will get back to you shortly!"),
   ("gym", "I\x27m at the gym right now. Will reply once I\x27m done 💪"),
   ("fresh", "I\x27m freshening up. Will respond in a bit!"),
   ("driving", "I\x27m driving at the moment. I\x27ll text you once I\x27m parked 🚗"),
   ("travel", "I\x27m traveling right now. Will reply when I can!"),
   ("family", "I\x27m spending time with family. Will catch up with you later 🏡"),
   ("vacation", "I\x27m on vacation! I\x27ll reply when I get a chance 🌴")]

/-- Model of `categories.get_category_message`: an unknown key raises
`ValueError` (modelled as `Except.error`); a known key returns its
message. -/
def get_category_message (category : String) : Except String String :=
  match CATEGORIES.lookup category with
  | some msg => Except.ok msg
  | none => Except.error ("Category " ++ category ++ " does not exist")

/-- The resolver passes `temp_state.temp_category` (an optional field)
straight into `get_category_message`; a `None` category misses the table
membership test in Python and raises the same `ValueError`. -/
def get_category_message_opt : Option String → Except String String
  | some c => get_category_message c
  | none => Except.error "Category None does not exist"

/-- Model of `Database.get_active_rule`: iterate the stored rules in
order and return the first whose range contains the probe time. -/
def get_active_rule (rules : List TimeRule) (current_time : Time) : Option TimeRule :=
  rules.find? (fun rule => is_time_in_range current_time rule.start_time rule.end_time)

/-- Temporary-override record (`models.TempState`); timestamps are
integer seconds. -/
structure TempState where
  owner_id : Int
  temp_active : Bool
  temp_category : Option String
  temp_expiry : Option Int
  saved_rules : List RuleDict
  saved_custom_enabled : Bool
deriving DecidableEq, Repr

/-- The inputs `_get_current_auto_reply_message` reads in one pass:
override state, the rules-enabled flag, the stored rules, the default
message, and the current instant (as a timestamp for expiry comparison and
as a time of day for rule matching). -/
structure ResolveCtx where
  temp_state : Option TempState
  custom_rules_enabled : Bool
  rules : List TimeRule
  default_message : String
  now : Int
  now_time : Time
deriving DecidableEq, Repr

/-- The tail of `_get_current_auto_reply_message` after the override
check: an active time rule (only when custom rules are enabled), else the
default message. -/
def rule_or_default (ctx : ResolveCtx) : Except String String :=
  if ctx.custom_rules_enabled then
    match get_active_rule ctx.rules ctx.now_time with
    | some rule => get_category_message rule.category
    | none => Except.ok ctx.default_message
  else Except.ok ctx.default_message

/-- Model of `TelegramUserbot._get_current_auto_reply_message`.  An active
override with no expiry, or one whose expiry lies strictly in the future,
yields the override category message; an active-but-expired override only
schedules an asynchronous reset and resolution falls through; otherwise
the time-rule/default tail runs. -/
def get_current_auto_reply_message (ctx : ResolveCtx) : Except String String :=
  match ctx.temp_state with
  | some ts =>
    if ts.temp_active then
      match ts.temp_expiry with
      | some expiry =>
        if ctx.now < expiry then get_category_message_opt ts.temp_category
        else rule_or_default ctx
      | none => get_category_message_opt ts.temp_category
    else rule_or_default ctx
  | none => rule_or_default ctx

/-- The persistent state the temp-mode commands operate on: the live rule
set, the custom-rules flag, and the override slot. -/
structure World where
  rules : List TimeRule
  custom_rules_enabled : Bool
  temp_state : Option TempState
deriving DecidableEq, Repr

/-- Fresh-activation branch of `_cmd_temp`: snapshot the live rules (as
stored dicts) and the custom-rules flag into a new active override with
the requested category and no expiry, then force the custom-rules flag
off (the source only writes the flag when it was on; the resulting value
is `false` either way). -/
def activate_temp_fresh (owner : Int) (category : String) (w : World) : World :=
  let snapshot : TempState :=
    { owner_id := owner, temp_active := true, temp_category := some category,
      temp_expiry := none, saved_rules := w.rules.map TimeRule.to_dict,
      saved_custom_enabled := w.custom_rules_enabled }
  { rules := w.rules, custom_rules_enabled := false, temp_state := some snapshot }

/-- Model of `TelegramUserbot._cmd_temp` after category validation: with
an override already active it assigns the new category and clears the
expiry on the live record; otherwise it performs a fresh activation. -/
def cmd_temp (owner : Int) (category : String) (w : World) : World :=
  match w.temp_state with
  | some ts =>
    if ts.temp_active then
      let ts2 : TempState := { ts with temp_category := some category, temp_expiry := none }
      { w with temp_state := some ts2 }
    else activate_temp_fresh owner category w
  | none => activate_temp_fresh owner category w

/-- Model of `TelegramUserbot._reset_temp_mode`: with no active override
this is a no-op; otherwise it deletes every live rule, re-inserts the
snapshot through `TimeRule.from_dict` (a corrupt snapshot entry raises
there, modelled as `none`), restores the saved custom-rules flag, and
clears the override record. -/
def reset_temp_mode (w : World) : Option World :=
  match w.temp_state with
  | some ts =>
    if ts.temp_active then
      match rules_from_dicts ts.saved_rules with
      | some restored =>
        some { rules := restored, custom_rules_enabled := ts.saved_custom_enabled,
               temp_state := none }
      | none => none
    else some w
  | none => some w

/-- Configuration constant `REPLY_COOLDOWN_SECONDS` (`config.py`). -/
def REPLY_COOLDOWN_SECONDS : Int := 300

/-- Configuration constant `CONFIRMATION_EXPIRY_SECONDS` (`config.py`). -/
def CONFIRMATION_EXPIRY_SECONDS : Int := 60

/-- Model of `utils.is_expired`: elapsed seconds since the timestamp have
reached the expiry duration. -/
def is_expired (now timestamp expiry_seconds : Int) : Bool :=
  decide (expiry_seconds ≤ now - timestamp)

/-- Python dict assignment on an association list: an existing key is
updated in place (its position kept), a new key is appended. -/
def dict_set (k v : Int) : List (Int × Int) → List (Int × Int)
  | [] => [(k, v)]
  | (k2, v2) :: rest =>
    if k2 = k then (k, v) :: rest else (k2, v2) :: dict_set k v rest

/-- Python dict lookup on an association list. -/
def dict_get (k : Int) : List (Int × Int) → Option Int
  | [] => none
  | (k2, v2) :: rest => if k2 = k then some v2 else dict_get k rest

/-- Model of `TelegramUserbot._mark_user_replied`: record the current
time for the recipient, then, once the cache holds more than 100 entries,
drop every entry at or beyond the cooldown age (the source keeps entries
with `time > now - cooldown`). -/
def mark_user_replied (now user_id : Int) (cache : List (Int × Int)) : List (Int × Int) :=
  let updated := dict_set user_id now cache
  if updated.length > 100 then
    updated.filter (fun e => decide (now - REPLY_COOLDOWN_SECONDS < e.2))
  else updated

/-- Model of the cooldown and presence checks of
`TelegramUserbot._should_reply_to_user`: a recipient replied to within the
cooldown window is refused; otherwise the owner being online refuses; else
reply. -/
def should_reply_to_user (now user_id : Int) (cache : List (Int × Int))
    (owner_online : Bool) : Bool :=
  match dict_get user_id cache with
  | some last =>
    if now - last < REPLY_COOLDOWN_SECONDS then false
    else if owner_online then false else true
  | none => if owner_online then false else true

/-- Singleton reply state (`models.BotState`). -/
structure BotState where
  owner_id : Int
  auto_reply_enabled : Bool
  default_message : String
  custom_rules_enabled : Bool
deriving DecidableEq, Repr

/-- Model of `TelegramUserbot._cmd_on`: with auto-reply already enabled
the command only replies a warning; otherwise it enables auto-reply and
forces the custom-rules flag off. -/
def cmd_on (st : BotState) : BotState :=
  if st.auto_reply_enabled then st
  else { st with auto_reply_enabled := true, custom_rules_enabled := false }

/-- Model of `TelegramUserbot._cmd_off`: with auto-reply already disabled
the command only replies a warning; otherwise it disables auto-reply and
the custom-rules flag together. -/
def cmd_off (st : BotState) : BotState :=
  if st.auto_reply_enabled then
    { st with auto_reply_enabled := false, custom_rules_enabled := false }
  else st

/-- Pending destructive action (`models.PendingConfirmation`); the
creation instant is integer seconds. -/
structure PendingConfirmation where
  action_type : String
  category : Option String
  rule_id : Option String
  timestamp : Int
deriving DecidableEq, Repr

/-- Model of `Database.remove_time_rule_by_id` (`delete_one` under a
unique index): erase the first rule carrying the id, reporting whether one
was deleted. -/
def remove_time_rule_by_id (rule_id : String) (rules : List TimeRule) :
    List TimeRule × Bool :=
  (rules.eraseP (fun r => r.rule_id == rule_id),
   rules.any (fun r => r.rule_id == rule_id))

/-- Model of `Database.remove_time_rules_by_category` (`delete_many`):
drop every rule of the category, reporting the deleted count. -/
def remove_time_rules_by_category (category : String) (rules : List TimeRule) :
    List TimeRule × Nat :=
  (rules.filter (fun r => r.category != category),
   rules.countP (fun r => r.category == category))

/-- Model of `Database.remove_all_time_rules` (`delete_many` with an
owner-only filter): drop everything, reporting the deleted count. -/
def remove_all_time_rules (rules : List TimeRule) : List TimeRule × Nat :=
  ([], rules.length)

/-- Which reply branch of `_cmd_confirm` ran after a non-expired pending
action was executed. -/
inductive ConfirmReport where
  | removed_rule (category : Option String) (rule_id : String)
  | remove_rule_failed
  | invalid_confirmation_data
  | removed_category (category : Option String) (count : Nat)
  | no_category_rules_found
  | removed_all (count : Nat)
  | no_rules_found
  | unknown_action
deriving DecidableEq, Repr

/-- The reply branches the source prefixes with its failure marker (the
cross-mark emoji), as opposed to success or informational replies. -/
def ConfirmReport.is_error_reply : ConfirmReport → Bool
  | ConfirmReport.remove_rule_failed => true
  | ConfirmReport.invalid_confirmation_data => true
  | _ => false

/-- Overall result of one `/confirm` invocation. -/
inductive ConfirmOutcome where
  | nothing_pending
  | expired
  | executed (report : ConfirmReport)
deriving DecidableEq, Repr

/-- The state `_cmd_confirm` reads and writes: the live rule set and the
pending-confirmation slot. -/
structure ConfirmState where
  rules : List TimeRule
  pending : Option PendingConfirmation
deriving DecidableEq, Repr

/-- The action-execution chain of `_cmd_confirm` (its `if`/`elif` ladder
on `action_type`): the resulting rule store and the reply branch taken.
A `remove_custom_category` whose stored category is `None` matches no
stored rule. -/
def confirm_step (c : PendingConfirmation) (rules : List TimeRule) :
    List TimeRule × ConfirmReport :=
  if c.action_type == "remove_custom" then
    match c.rule_id with
    | some rid =>
      let res := remove_time_rule_by_id rid rules
      if res.2 then (res.1, ConfirmReport.removed_rule c.category rid)
      else (res.1, ConfirmReport.remove_rule_failed)
    | none => (rules, ConfirmReport.invalid_confirmation_data)
  else if c.action_type == "remove_custom_category" then
    match c.category with
    | some cat =>
      let res := remove_time_rules_by_category cat rules
      if res.2 > 0 then (res.1, ConfirmReport.removed_category c.category res.2)
      else (res.1, ConfirmReport.no_category_rules_found)
    | none => (rules, ConfirmReport.no_category_rules_found)
  else if c.action_type == "remove_all_custom" then
    let res := remove_all_time_rules rules
    if res.2 > 0 then (res.1, ConfirmReport.removed_all res.2)
    else (res.1, ConfirmReport.no_rules_found)
  else (rules, ConfirmReport.unknown_action)

/-- Model of `TelegramUserbot._cmd_confirm`.  No pending action reports
so; an expired one is cleared with no mutation; otherwise the action runs
against the rule store and the pending slot is cleared unconditionally,
whatever the action type or its effect. -/
def cmd_confirm (now : Int) (st : ConfirmState) : ConfirmState × ConfirmOutcome :=
  match st.pending with
  | none => (st, ConfirmOutcome.nothing_pending)
  | some c =>
    if is_expired now c.timestamp CONFIRMATION_EXPIRY_SECONDS then
      ({ st with pending := none }, ConfirmOutcome.expired)
    else
      ({ rules := (confirm_step c st.rules).1, pending := none },
       ConfirmOutcome.executed (confirm_step c st.rules).2)

theorem parse_time_fmtTime_bounded :
    ∀ h < 24, ∀ m < 60, parse_time (fmtTime ⟨h, m⟩) = some ⟨h, m⟩ := by
  decide

/-- Round trip: formatting a valid time and parsing it back restores it. -/
theorem parse_time_fmtTime (t : Time) (h : ValidTime t) :
    parse_time (fmtTime t) = some t := by
  obtain ⟨h1, h2⟩ := h
  exact parse_time_fmtTime_bounded t.hour h1 t.minute h2

/-- Claim C4: for every rule and every time of day, `contains` is the
inclusive interval membership when `start <= end` and the midnight-wrapped
disjunction when `start > end`; both endpoints of every rule are matched;
a rule with `start == end` matches exactly that minute.  The check is a
total function of its inputs by construction. -/
theorem C4_is_time_in_range_spec (r : TimeRule) (t : Time) :
    (Time.le r.start_time r.end_time →
      (is_time_in_range t r.start_time r.end_time = true ↔
        Time.le r.start_time t ∧ Time.le t r.end_time)) ∧
    (¬ Time.le r.start_time r.end_time →
      (is_time_in_range t r.start_time r.end_time = true ↔
        Time.le r.start_time t ∨ Time.le t r.end_time)) ∧
    is_time_in_range r.start_time r.start_time r.end_time = true ∧
    is_time_in_range r.end_time r.start_time r.end_time = true ∧
    (r.start_time = r.end_time →
      (is_time_in_range t r.start_time r.end_time = true ↔ t = r.start_time)) := by
  obtain ⟨cat, ⟨sh, sm⟩, ⟨eh, em⟩, rid⟩ := r
  obtain ⟨th, tm⟩ := t
  simp only [is_time_in_range, Time.le, Time.mk.injEq]
  split_ifs with h <;>
    simp only [Bool.and_eq_true, Bool.or_eq_true, decide_eq_true_eq, Time.le,
      Time.mk.injEq, implies_true, and_true, true_and] <;>
    first | trivial | omega

/-- Witness for C4 on the wrapping rule 22:00-06:00 at 23:30. -/
theorem C4_is_time_in_range_spec_witness :
    is_time_in_range ⟨23, 30⟩ ⟨22, 0⟩ ⟨6, 0⟩ = true := by
  have h := C4_is_time_in_range_spec ⟨"driving", ⟨22, 0⟩, ⟨6, 0⟩, "r1"⟩ ⟨23, 30⟩
  exact (h.2.1 (by decide)).mpr (Or.inl (by decide))

theorem find?_none_char {α : Type} (p : α → Bool) (l : List α) :
    l.find? p = none ↔ ∀ x ∈ l, p x = false := by
  induction l with
  | nil => simp
  | cons a as ih =>
    by_cases h : p a
    · simp [List.find?_cons_of_pos _ h, h]
    · simp only [Bool.not_eq_true] at h
      simp [List.find?_cons_of_neg, h, ih]

theorem find?_some_decomp {α : Type} (p : α → Bool) (l : List α) :
    ∀ a, l.find? p = some a →
      ∃ l1 l2, l = l1 ++ a :: l2 ∧ p a = true ∧ ∀ x ∈ l1, p x = false := by
  induction l with
  | nil => intro a h; simp at h
  | cons b bs ih =>
    intro a h
    by_cases hb : p b
    · rw [List.find?_cons_of_pos _ hb] at h
      obtain rfl : b = a := by injection h
      exact ⟨[], bs, rfl, hb, by simp⟩
    · simp only [Bool.not_eq_true] at hb
      rw [List.find?_cons_of_neg _ (by simp [hb])] at h
      obtain ⟨l1, l2, rfl, hpa, hall⟩ := ih a h
      refine ⟨b :: l1, l2, rfl, hpa, ?_⟩
      intro x hx
      rcases List.mem_cons.mp hx with rfl | hx2
      · exact hb
      · exact hall x hx2

theorem find?_first {α : Type} (p : α → Bool) (l1 : List α) (a : α) (l2 : List α)
    (hpa : p a = true) (hall : ∀ x ∈ l1, p x = false) :
    (l1 ++ a :: l2).find? p = some a := by
  induction l1 with
  | nil => simp [List.find?_cons_of_pos _ hpa]
  | cons b bs ih =>
    have hb : p b = false := hall b (by simp)
    simp only [List.cons_append]
    rw [List.find?_cons_of_neg _ (by simp [hb])]
    exact ih fun x hx => hall x (by simp [hx])

/-- Claim C5: the matcher returns the first rule, in the given order,
whose range contains the probe time; it returns none exactly on an empty
sequence or when no rule matches; with two overlapping matching rules the
earlier one wins (the last conjunct instantiates to that situation). -/
theorem C5_get_active_rule_first_match (rules : List TimeRule) (t : Time) :
    get_active_rule ([] : List TimeRule) t = none ∧
    (get_active_rule rules t = none ↔
      ∀ r ∈ rules, is_time_in_range t r.start_time r.end_time = false) ∧
    (∀ r, get_active_rule rules t = some r →
      ∃ l1 l2, rules = l1 ++ r :: l2 ∧
        is_time_in_range t r.start_time r.end_time = true ∧
        ∀ r2 ∈ l1, is_time_in_range t r2.start_time r2.end_time = false) ∧
    (∀ l1 r l2, rules = l1 ++ r :: l2 →
      is_time_in_range t r.start_time r.end_time = true →
      (∀ r2 ∈ l1, is_time_in_range t r2.start_time r2.end_time = false) →
      get_active_rule rules t = some r) := by
  refine ⟨rfl, ?_, ?_, ?_⟩
  · exact find?_none_char _ rules
  · exact find?_some_decomp _ rules
  · intro l1 r l2 hsplit hpa hall
    rw [hsplit]
    exact find?_first _ l1 r l2 hpa hall

/-- Witness for C5: of two overlapping matching rules the first wins. -/
theorem C5_get_active_rule_first_match_witness :
    get_active_rule
      [⟨"work", ⟨9, 0⟩, ⟨17, 0⟩, "r1"⟩, ⟨"lunch", ⟨10, 0⟩, ⟨14, 0⟩, "r2"⟩] ⟨10, 30⟩ =
      some ⟨"work", ⟨9, 0⟩, ⟨17, 0⟩, "r1"⟩ := by
  have h := C5_get_active_rule_first_match
    [⟨"work", ⟨9, 0⟩, ⟨17, 0⟩, "r1"⟩, ⟨"lunch", ⟨10, 0⟩, ⟨14, 0⟩, "r2"⟩] ⟨10, 30⟩
  exact h.2.2.2 [] ⟨"work", ⟨9, 0⟩, ⟨17, 0⟩, "r1"⟩ [⟨"lunch", ⟨10, 0⟩, ⟨14, 0⟩, "r2"⟩]
    rfl (by decide) (by simp)

/-- Claim C6: a category key absent from the fixed table makes the lookup
a hard error (the `ValueError` of the source, modelled as `Except.error`),
also when it is reached from reply resolution through an active override;
a key present in the table yields exactly that key's message. -/
theorem C6_unknown_category_hard_error (k : String) :
    (CATEGORIES.lookup k = none →
      get_category_message k = Except.error ("Category " ++ k ++ " does not exist")) ∧
    (∀ m, CATEGORIES.lookup k = some m → get_category_message k = Except.ok m) ∧
    (∀ ts custom rules dflt now nt, ts.temp_active = true → ts.temp_expiry = none →
      ts.temp_category = some k → CATEGORIES.lookup k = none →
      ∃ e, get_current_auto_reply_message ⟨some ts, custom, rules, dflt, now, nt⟩ =
        Except.error e) := by
  refine ⟨?_, ?_, ?_⟩
  · intro h; simp [get_category_message, h]
  · intro m h; simp [get_category_message, h]
  · intro ts custom rules dflt now nt hact hexp hcat hk
    refine ⟨"Category " ++ k ++ " does not exist", ?_⟩
    simp [get_current_auto_reply_message, hact, hexp, hcat,
      get_category_message_opt, get_category_message, hk]

/-- Witness for C6: an unknown key errors, a known key returns its text. -/
theorem C6_unknown_category_hard_error_witness :
    get_category_message "nonexistent" =
      Except.error ("Category " ++ "nonexistent" ++ " does not exist") ∧
    get_category_message "offline" =
      Except.ok "I\x27m offline at the moment. Will catch up with you later!" := by
  exact ⟨(C6_unknown_category_hard_error "nonexistent").1 (by decide),
    (C6_unknown_category_hard_error "offline").2.1 _ (by decide)⟩

/-- Claim C1: the resolver follows the priority cascade.  An active
override with no expiry, or with the current instant strictly before its
expiry, yields the override category message; an active-but-expired
override is not used and resolution falls through to the time-rule tail;
with no active override the tail runs, and the tail picks the matched
rule's category message exactly when custom rules are enabled and a rule
matches, the stored default otherwise; in particular, with custom rules
disabled and no active override, the default is returned for any rule
set. -/
theorem C1_resolve_priority_cascade (ctx : ResolveCtx) :
    (∀ ts, ctx.temp_state = some ts → ts.temp_active = true →
      (ts.temp_expiry = none →
        get_current_auto_reply_message ctx = get_category_message_opt ts.temp_category) ∧
      (∀ e, ts.temp_expiry = some e → ctx.now < e →
        get_current_auto_reply_message ctx = get_category_message_opt ts.temp_category) ∧
      (∀ e, ts.temp_expiry = some e → ¬ ctx.now < e →
        get_current_auto_reply_message ctx = rule_or_default ctx)) ∧
    ((∀ ts, ctx.temp_state = some ts → ts.temp_active = false) →
      get_current_auto_reply_message ctx = rule_or_default ctx) ∧
    (ctx.custom_rules_enabled = true →
      (∀ r, get_active_rule ctx.rules ctx.now_time = some r →
        rule_or_default ctx = get_category_message r.category) ∧
      (get_active_rule ctx.rules ctx.now_time = none →
        rule_or_default ctx = Except.ok ctx.default_message)) ∧
    (ctx.custom_rules_enabled = false →
      rule_or_default ctx = Except.ok ctx.default_message) ∧
    (ctx.custom_rules_enabled = false →
      (∀ ts, ctx.temp_state = some ts → ts.temp_active = false) →
      get_current_auto_reply_message ctx = Except.ok ctx.default_message) := by
  have tail : ∀ hcase : ctx.custom_rules_enabled = false,
      rule_or_default ctx = Except.ok ctx.default_message := by
    intro hcase; simp [rule_or_default, hcase]
  have fallthrough : (∀ ts, ctx.temp_state = some ts → ts.temp_active = false) →
      get_current_auto_reply_message ctx = rule_or_default ctx := by
    intro hno
    cases hcase : ctx.temp_state with
    | none => simp [get_current_auto_reply_message, hcase]
    | some ts => simp [get_current_auto_reply_message, hcase, hno ts hcase]
  refine ⟨?_, fallthrough, ?_, tail, ?_⟩
  · intro ts hts hact
    refine ⟨?_, ?_, ?_⟩
    · intro hexp
      simp [get_current_auto_reply_message, hts, hact, hexp]
    · intro e hexp hlt
      simp [get_current_auto_reply_message, hts, hact, hexp, hlt]
    · intro e hexp hge
      simp [get_current_auto_reply_message, hts, hact, hexp, hge]
  · intro hc
    constructor
    · intro r hr; simp [rule_or_default, hc, hr]
    · intro hr; simp [rule_or_default, hc, hr]
  · intro hc hno
    rw [fallthrough hno]
    exact tail hc

/-- Witness for C1: no override, custom rules disabled, a rule present,
the default is returned. -/
theorem C1_resolve_priority_cascade_witness :
    get_current_auto_reply_message
      { temp_state := none, custom_rules_enabled := false,
        rules := [⟨"work", ⟨9, 0⟩, ⟨17, 0⟩, "r1"⟩], default_message := "dflt",
        now := 0, now_time := ⟨10, 30⟩ } = Except.ok "dflt" := by
  have h := C1_resolve_priority_cascade
    { temp_state := none, custom_rules_enabled := false,
      rules := [⟨"work", ⟨9, 0⟩, ⟨17, 0⟩, "r1"⟩], default_message := "dflt",
      now := 0, now_time := ⟨10, 30⟩ }
  exact h.2.2.2.2 rfl (by intro ts hts; exact Option.noConfusion hts)

theorem from_dict_to_dict (r : TimeRule) (h1 : ValidTime r.start_time)
    (h2 : ValidTime r.end_time) : RuleDict.from_dict r.to_dict = some r := by
  obtain ⟨cat, s, e, rid⟩ := r
  simp only [TimeRule.to_dict, RuleDict.from_dict] at *
  rw [parse_time_fmtTime s h1, parse_time_fmtTime e h2]

theorem rules_from_dicts_map (l : List TimeRule)
    (hv : ∀ r ∈ l, ValidTime r.start_time ∧ ValidTime r.end_time) :
    rules_from_dicts (l.map TimeRule.to_dict) = some l := by
  induction l with
  | nil => rfl
  | cons r rs ih =>
    have h := hv r (List.mem_cons_self r rs)
    rw [List.map_cons]
    simp only [rules_from_dicts]
    rw [from_dict_to_dict r h.1 h.2, ih fun x hx => hv x (List.mem_cons_of_mem _ hx)]

/-- Claim C2: activating an override from an inactive-override state and
later resetting restores exactly the original rule list (hence the same
set of (category, start, end) tuples) and the original custom-rules flag,
whatever the live rule set was mutated to in between: restore replaces
the live rules with the snapshot, not a merge.  Validity of the stored
times is the invariant `parse_time` guarantees for every stored rule. -/
theorem C2_override_roundtrip (owner : Int) (category : String) (w : World)
    (rules2 : List TimeRule)
    (hv : ∀ r ∈ w.rules, ValidTime r.start_time ∧ ValidTime r.end_time)
    (hinactive : ∀ ts, w.temp_state = some ts → ts.temp_active = false) :
    reset_temp_mode { cmd_temp owner category w with rules := rules2 } =
      some { rules := w.rules, custom_rules_enabled := w.custom_rules_enabled,
             temp_state := none } := by
  have hact : cmd_temp owner category w = activate_temp_fresh owner category w := by
    cases hcase : w.temp_state with
    | none => simp [cmd_temp, hcase]
    | some ts => simp [cmd_temp, hcase, hinactive ts hcase]
  rw [hact]
  simp [activate_temp_fresh, reset_temp_mode, rules_from_dicts_map w.rules hv]

/-- Witness for C2: one valid rule, rules wiped during the override,
restored on reset together with the enabled flag. -/
theorem C2_override_roundtrip_witness :
    reset_temp_mode
      { cmd_temp 1 "lunch"
          { rules := [⟨"work", ⟨9, 0⟩, ⟨17, 0⟩, "r1"⟩], custom_rules_enabled := true,
            temp_state := none } with
        rules := [] } =
      some { rules := [⟨"work", ⟨9, 0⟩, ⟨17, 0⟩, "r1"⟩], custom_rules_enabled := true,
             temp_state := none } := by
  exact C2_override_roundtrip 1 "lunch"
    { rules := [⟨"work", ⟨9, 0⟩, ⟨17, 0⟩, "r1"⟩], custom_rules_enabled := true,
      temp_state := none } [] (by decide) (by intro ts hts; exact Option.noConfusion hts)

theorem confirm_step_count_actions_not_error (c : PendingConfirmation)
    (rules : List TimeRule)
    (h : c.action_type = "remove_custom_category" ∨ c.action_type = "remove_all_custom") :
    (confirm_step c rules).2.is_error_reply = false := by
  rcases h with h | h
  · have h1 : (("remove_custom_category" : String) == "remove_custom") = false := by decide
    cases hcat : c.category with
    | none =>
      simp [confirm_step, h, h1, hcat, ConfirmReport.is_error_reply]
    | some cat =>
      have h2 : (("remove_custom_category" : String) == "remove_custom_category") = true := by
        decide
      simp only [confirm_step, h, h1, hcat, Bool.false_eq_true, if_false, h2, if_true]
      split_ifs <;> rfl
  · have h1 : (("remove_all_custom" : String) == "remove_custom") = false := by decide
    have h2 : (("remove_all_custom" : String) == "remove_custom_category") = false := by
      decide
    have h3 : (("remove_all_custom" : String) == "remove_all_custom") = true := by decide
    simp only [confirm_step, h, h1, h2, h3, Bool.false_eq_true, if_false, if_true]
    split_ifs <;> rfl

/-- Claim C3 (amended): an expired pending confirmation is cleared with
zero mutation of the rule store and reported as expired; a confirm
strictly inside the window executes the action, clears the pending slot
unconditionally, and an immediately following confirm reports nothing to
confirm.  A zero-entity effect is reported as a valid (non-error) outcome
for the category-wide and remove-all actions; the single-rule action
instead reports a failure when zero rules were removed (see the
counterexample). -/
theorem C3_confirm_gate (now : Int) (st : ConfirmState) (c : PendingConfirmation)
    (hp : st.pending = some c) :
    (is_expired now c.timestamp CONFIRMATION_EXPIRY_SECONDS = true →
      cmd_confirm now st = ({ st with pending := none }, ConfirmOutcome.expired)) ∧
    (is_expired now c.timestamp CONFIRMATION_EXPIRY_SECONDS = false →
      (cmd_confirm now st).1.pending = none ∧
      (cmd_confirm now st).2 = ConfirmOutcome.executed (confirm_step c st.rules).2 ∧
      ((c.action_type = "remove_custom_category" ∨ c.action_type = "remove_all_custom") →
        (confirm_step c st.rules).2.is_error_reply = false) ∧
      (cmd_confirm now (cmd_confirm now st).1).2 = ConfirmOutcome.nothing_pending) := by
  constructor
  · intro hexp
    simp [cmd_confirm, hp, hexp]
  · intro hexp
    have hred : cmd_confirm now st =
        ({ rules := (confirm_step c st.rules).1, pending := none },
         ConfirmOutcome.executed (confirm_step c st.rules).2) := by
      simp [cmd_confirm, hp, hexp]
    refine ⟨by rw [hred], by rw [hred], ?_, by rw [hred]; simp [cmd_confirm]⟩
    intro h
    exact confirm_step_count_actions_not_error c st.rules h

/-- Counterexample for C3 as frozen: before the window elapses, a pending
single-rule removal whose rule is no longer stored mutates zero entities
yet is reported through the failure branch (the reply the source marks as
an error), not as a valid outcome. -/
theorem C3_confirm_gate_counterexample :
    is_expired 10 0 CONFIRMATION_EXPIRY_SECONDS = false ∧
    cmd_confirm 10
      { rules := [],
        pending := some { action_type := "remove_custom", category := some "work",
                          rule_id := some "deadbeef", timestamp := 0 } } =
      ({ rules := [], pending := none },
       ConfirmOutcome.executed ConfirmReport.remove_rule_failed) ∧
    ConfirmReport.is_error_reply ConfirmReport.remove_rule_failed = true := by
  decide

/-- Witness for C3: a timely confirm of a remove-all action over one rule
executes it, clears the pending slot, and a second confirm finds nothing. -/
theorem C3_confirm_gate_witness :
    is_expired 10 0 CONFIRMATION_EXPIRY_SECONDS = false ∧
    (cmd_confirm 10
      { rules := [⟨"work", ⟨9, 0⟩, ⟨17, 0⟩, "r1"⟩],
        pending := some { action_type := "remove_all_custom", category := none,
                          rule_id := none, timestamp := 0 } }).1.pending = none ∧
    (cmd_confirm 10
      (cmd_confirm 10
        { rules := [⟨"work", ⟨9, 0⟩, ⟨17, 0⟩, "r1"⟩],
          pending := some { action_type := "remove_all_custom", category := none,
                            rule_id := none, timestamp := 0 } }).1).2 =
      ConfirmOutcome.nothing_pending := by
  have h := C3_confirm_gate 10
    { rules := [⟨"work", ⟨9, 0⟩, ⟨17, 0⟩, "r1"⟩],
      pending := some { action_type := "remove_all_custom", category := none,
                        rule_id := none, timestamp := 0 } }
    { action_type := "remove_all_custom", category := none,
      rule_id := none, timestamp := 0 } rfl
  have h2 := h.2 (by decide)
  exact ⟨by decide, h2.1, h2.2.2.2⟩

/-- Claim C7 (amended): a further activation while an override is active
mutates exactly the category and the expiry of the live override (the
expiry is cleared to absent); the snapshot, the saved flag, the owner and
the active marker are untouched, as are the live rules and the
custom-rules flag, so the original saved baseline survives successive
activations. -/
theorem C7_successive_activation_frame (owner : Int) (category : String) (w : World)
    (ts : TempState) (h : w.temp_state = some ts) (ha : ts.temp_active = true) :
    (cmd_temp owner category w).temp_state =
      some { ts with temp_category := some category, temp_expiry := none } ∧
    (cmd_temp owner category w).rules = w.rules ∧
    (cmd_temp owner category w).custom_rules_enabled = w.custom_rules_enabled := by
  refine ⟨?_, ?_, ?_⟩ <;> simp [cmd_temp, h, ha]

/-- Counterexample for C7 as frozen: with a live override carrying an
expiry, a further activation does not leave every non-category field
unchanged — the result differs from the record with only the category
replaced, because the expiry is cleared. -/
theorem C7_successive_activation_frame_counterexample :
    (cmd_temp 1 "lunch"
      { rules := [], custom_rules_enabled := false,
        temp_state := some { owner_id := 1, temp_active := true,
                             temp_category := some "busy", temp_expiry := some 500,
                             saved_rules := [], saved_custom_enabled := true } }).temp_state ≠
      some { owner_id := 1, temp_active := true, temp_category := some "lunch",
             temp_expiry := some 500, saved_rules := [], saved_custom_enabled := true } := by
  decide

/-- Witness for C7: the amended frame at a concrete active override. -/
theorem C7_successive_activation_frame_witness :
    (cmd_temp 1 "lunch"
      { rules := [], custom_rules_enabled := false,
        temp_state := some { owner_id := 1, temp_active := true,
                             temp_category := some "busy", temp_expiry := some 500,
                             saved_rules := [], saved_custom_enabled := true } }).temp_state =
      some { owner_id := 1, temp_active := true, temp_category := some "lunch",
             temp_expiry := none, saved_rules := [], saved_custom_enabled := true } := by
  have h := C7_successive_activation_frame 1 "lunch"
    { rules := [], custom_rules_enabled := false,
      temp_state := some { owner_id := 1, temp_active := true,
                           temp_category := some "busy", temp_expiry := some 500,
                           saved_rules := [], saved_custom_enabled := true } }
    { owner_id := 1, temp_active := true, temp_category := some "busy",
      temp_expiry := some 500, saved_rules := [], saved_custom_enabled := true }
    rfl rfl
  exact h.1

theorem dict_get_dict_set (k v : Int) (l : List (Int × Int)) :
    dict_get k (dict_set k v l) = some v := by
  induction l with
  | nil => simp [dict_set, dict_get]
  | cons e rest ih =>
    obtain ⟨k2, v2⟩ := e
    by_cases h : k2 = k
    · simp [dict_set, dict_get, h]
    · simp [dict_set, dict_get, h, ih]

theorem dict_get_filter (k v : Int) (p : Int × Int → Bool) (l : List (Int × Int))
    (hget : dict_get k l = some v) (hp : p (k, v) = true) :
    dict_get k (l.filter p) = some v := by
  induction l with
  | nil => simp [dict_get] at hget
  | cons e rest ih =>
    obtain ⟨k2, v2⟩ := e
    by_cases h : k2 = k
    · subst h
      rw [dict_get, if_pos rfl] at hget
      obtain rfl : v2 = v := by injection hget
      rw [List.filter_cons, if_pos hp]
      rw [dict_get, if_pos rfl]
    · rw [dict_get, if_neg h] at hget
      rw [List.filter_cons]
      by_cases hpe : p (k2, v2)
      · rw [if_pos hpe, dict_get, if_neg h]
        exact ih hget
      · rw [if_neg hpe]
        exact ih hget

theorem mark_user_replied_get (now u : Int) (cache : List (Int × Int)) :
    dict_get u (mark_user_replied now u cache) = some now := by
  simp only [mark_user_replied]
  split_ifs with h
  · refine dict_get_filter u now _ _ (dict_get_dict_set u now cache) ?_
    simp only [decide_eq_true_eq, REPLY_COOLDOWN_SECONDS]
    omega
  · exact dict_get_dict_set u now cache

/-- Claim C8: after `markReplied(u)` at `t0`, a `shouldReply(u)` check at
any `t` strictly inside the cooldown window refuses (whatever the
presence signal says), and a check once the cooldown has elapsed permits,
under the precondition that the owner-presence check reports the owner as
not online. -/
theorem C8_cooldown_window (cache : List (Int × Int)) (u t0 t : Int) (online : Bool) :
    (t - t0 < REPLY_COOLDOWN_SECONDS →
      should_reply_to_user t u (mark_user_replied t0 u cache) online = false) ∧
    (REPLY_COOLDOWN_SECONDS ≤ t - t0 → online = false →
      should_reply_to_user t u (mark_user_replied t0 u cache) online = true) := by
  have hget := mark_user_replied_get t0 u cache
  constructor
  · intro hlt
    simp [should_reply_to_user, hget, hlt]
  · intro hge honline
    have hn : ¬ t - t0 < REPLY_COOLDOWN_SECONDS := by omega
    simp [should_reply_to_user, hget, hn, honline]

/-- Witness for C8: inside the window the reply is refused, after it the
reply is permitted with the owner away. -/
theorem C8_cooldown_window_witness :
    should_reply_to_user 100 5 (mark_user_replied 0 5 []) false = false ∧
    should_reply_to_user 400 5 (mark_user_replied 0 5 []) false = true :=
  ⟨(C8_cooldown_window [] 5 0 100 false).1 (by decide),
   (C8_cooldown_window [] 5 0 400 false).2 (by decide) rfl⟩

/-- Claim C9: `markReplied` records the current time for the recipient,
who is present in the cache immediately afterwards; and once the cache
tracks more than 100 recipients, every entry older than the cooldown
window is evicted while entries still within the window are retained. -/
theorem C9_mark_replied_bounded (cache : List (Int × Int)) (now u : Int) :
    dict_get u (mark_user_replied now u cache) = some now ∧
    ((dict_set u now cache).length > 100 →
      ∀ v t, (v, t) ∈ dict_set u now cache →
        (REPLY_COOLDOWN_SECONDS < now - t → (v, t) ∉ mark_user_replied now u cache) ∧
        (now - t < REPLY_COOLDOWN_SECONDS → (v, t) ∈ mark_user_replied now u cache)) := by
  refine ⟨mark_user_replied_get now u cache, ?_⟩
  intro hlen v t hmem
  constructor
  · intro hold hcontra
    simp only [mark_user_replied, if_pos hlen] at hcontra
    have := (List.mem_filter.mp hcontra).2
    simp only [decide_eq_true_eq] at this
    omega
  · intro hin
    simp only [mark_user_replied, if_pos hlen]
    refine List.mem_filter.mpr ⟨hmem, ?_⟩
    simp only [decide_eq_true_eq]
    omega

/-- A cache already holding 101 recipients, all last served at time 0. -/
def c9BigCache : List (Int × Int) :=
  (List.range 101).map fun i => ((i : Int), (0 : Int))

/-- Witness for C9: on a cache of 101 stale entries, marking a fresh
recipient at time 400 records it and evicts a stale entry. -/
theorem C9_mark_replied_bounded_witness :
    dict_get 200 (mark_user_replied 400 200 c9BigCache) = some 400 ∧
    ((0 : Int), (0 : Int)) ∉ mark_user_replied 400 200 c9BigCache := by
  have h := C9_mark_replied_bounded c9BigCache 400 200
  exact ⟨h.1, (h.2 (by decide) 0 0 (by decide)).1 (by decide)⟩

/-- Claim C10 (amended): when auto-reply is currently disabled, `/on`
enables it and forces the custom-rules flag off; when auto-reply is
currently enabled, `/off` disables both flags; but each command is a
no-op when the bot is already in the requested state, leaving the
custom-rules flag untouched there. -/
theorem C10_on_off_custom_rules (st : BotState) :
    (st.auto_reply_enabled = false →
      cmd_on st = { st with auto_reply_enabled := true, custom_rules_enabled := false }) ∧
    (st.auto_reply_enabled = true → cmd_on st = st) ∧
    (st.auto_reply_enabled = true →
      cmd_off st = { st with auto_reply_enabled := false, custom_rules_enabled := false }) ∧
    (st.auto_reply_enabled = false → cmd_off st = st) := by
  refine ⟨?_, ?_, ?_, ?_⟩ <;> intro h <;> simp [cmd_on, cmd_off, h]

/-- Counterexample for C10 as frozen: with auto-reply already enabled and
custom rules on, `/on` is a no-op and the custom-rules flag stays true;
likewise `/off` with auto-reply already disabled. -/
theorem C10_on_off_custom_rules_counterexample :
    (cmd_on { owner_id := 1, auto_reply_enabled := true, default_message := "hello",
              custom_rules_enabled := true }).custom_rules_enabled = true ∧
    (cmd_off { owner_id := 1, auto_reply_enabled := false, default_message := "hello",
               custom_rules_enabled := true }).custom_rules_enabled = true := by
  decide

/-- Witness for C10: enabling from the disabled state forces the
custom-rules flag off. -/
theorem C10_on_off_custom_rules_witness :
    cmd_on { owner_id := 1, auto_reply_enabled := false, default_message := "hi",
             custom_rules_enabled := true } =
      { owner_id := 1, auto_reply_enabled := true, default_message := "hi",
        custom_rules_enabled := false } := by
  have h := C10_on_off_custom_rules
    { owner_id := 1, auto_reply_enabled := false, default_message := "hi",
      custom_rules_enabled := true }
  exact h.1 rfl
